import Mathlib

/-!
Shallow embedding of the QR-remote-sensing batch scripts:

* scripts/select_scenes_to_shp.py   — cloud-cover threshold selection
* scripts/select_scenes_flood_aware.py — flood-aware selection with NIR water detection
* scripts/mosaic_by_geojson.py      — boundary filter, DBSCAN clustering, mosaic script

External library routines (shapely intersects, sklearn DBSCAN, GDAL raster reads)
are modelled as parameters or as environment records, since the scripts call them
as black boxes.  Python floats are modelled as exact rationals, Python stable
sorts as insertion sort (any stable sort is extensionally the same function),
Python strings compared by code points as lists of characters.
-/

/-- Scene record as built by read_shapefile_scenes in mosaic_by_geojson.py
(lines 58-97): attribute fields, centroid, bounding-box size and the footprint
polygon.  The polygon is a value of an abstract type, since all geometry
operations on it are shapely library calls. -/
structure Scene (Poly : Type) where
  scene_id : String
  tif_file : String
  cloud_cov : ℚ
  water_pct : ℚ
  centroid : ℚ × ℚ
  bbox_size : ℚ × ℚ
  polygon : Poly
deriving DecidableEq

/-- Boundary filter of mosaic_by_geojson.py (lines 100-117): the loop starts from
an empty list and appends every scene whose polygon intersects the boundary.
The shapely intersection test is the parameter. -/
def filter_scenes_by_boundary {Poly Bound : Type} (intersects : Poly → Bound → Bool)
    (scenes : List (Scene Poly)) (boundary : Bound) : List (Scene Poly) :=
  scenes.foldl
    (fun filtered scene =>
      if intersects scene.polygon boundary then filtered ++ [scene] else filtered)
    []

/-- Arithmetic mean as computed by numpy.mean on a list of rationals. -/
def npMean (l : List ℚ) : ℚ := l.sum / (l.length : ℚ)

/-- Average scene size of cluster_scenes in mosaic_by_geojson.py (lines 139-141):
mean bounding-box width and mean bounding-box height, averaged. -/
def avgSceneSize {Poly : Type} (scenes : List (Scene Poly)) : ℚ :=
  (npMean (scenes.map fun s => s.bbox_size.1) + npMean (scenes.map fun s => s.bbox_size.2)) / 2

/-- Average scene size as worded by the spec: the mean of the mean bounding-box
width and the mean bounding-box height, written as a numpy style mean of the two
values.  Compared with the source definition in the claim C4 theorem. -/
def avgSceneSizeSpec {Poly : Type} (scenes : List (Scene Poly)) : ℚ :=
  npMean [npMean (scenes.map fun s => s.bbox_size.1), npMean (scenes.map fun s => s.bbox_size.2)]

/-- Insertion of a scene into the cluster dictionary (lines 167-170 of
mosaic_by_geojson.py).  Python dictionaries preserve insertion order, so the
dictionary is an association list: a present key gets the scene appended to its
list, an absent key is added at the end. -/
def addToCluster {Poly : Type} (clusters : List (String × List (Scene Poly)))
    (key : String) (s : Scene Poly) : List (String × List (Scene Poly)) :=
  match clusters with
  | [] => [(key, [s])]
  | (k, l) :: rest =>
    if k = key then (k, l ++ [s]) :: rest else (k, l) :: addToCluster rest key s

/-- Cluster assignment loop of cluster_scenes (lines 156-170): each scene is
paired with its DBSCAN label; label -1 opens a fresh singleton cluster named
single_N with an incrementing noise counter, any other label goes to
cluster_(label+1). -/
def assignClusters {Poly : Type} :
    List (Scene Poly × ℤ) → ℕ → List (String × List (Scene Poly)) →
      List (String × List (Scene Poly))
  | [], _, clusters => clusters
  | (s, label) :: rest, noise_count, clusters =>
    if label = -1 then
      assignClusters rest (noise_count + 1)
        (addToCluster clusters ("single_" ++ toString (noise_count + 1)) s)
    else
      assignClusters rest noise_count
        (addToCluster clusters ("cluster_" ++ toString (label + 1)) s)

/-- Comparison used to sort scenes by cloud cover with highest first
(line 174 of mosaic_by_geojson.py, key cloud_cov with reverse=True). -/
def cloudGe {Poly : Type} (a b : Scene Poly) : Prop := b.cloud_cov ≤ a.cloud_cov

instance {Poly : Type} : DecidableRel (@cloudGe Poly) :=
  fun a b => inferInstanceAs (Decidable (b.cloud_cov ≤ a.cloud_cov))

instance {Poly : Type} : IsTotal (Scene Poly) cloudGe :=
  ⟨fun a b => le_total b.cloud_cov a.cloud_cov⟩

instance {Poly : Type} : IsTrans (Scene Poly) cloudGe :=
  ⟨fun _ _ _ hab hbc => le_trans hbc hab⟩

/-- Stable descending sort by cloud cover, modelling the Python stable list sort
with key cloud_cov and reverse=True. -/
def sortByCloud {Poly : Type} (l : List (Scene Poly)) : List (Scene Poly) :=
  List.insertionSort cloudGe l

/-- Spatial clustering of cluster_scenes in mosaic_by_geojson.py (lines 120-176).
The sklearn DBSCAN call is the dbscan parameter, mapping eps, min_samples and the
centroid list to one integer label per point.  An empty scene list returns the
empty cluster map before any library call. -/
def cluster_scenes {Poly : Type} (dbscan : ℚ → ℕ → List (ℚ × ℚ) → List ℤ)
    (scenes : List (Scene Poly)) (eps_factor : ℚ) (min_samples : ℕ) :
    List (String × List (Scene Poly)) :=
  if scenes.isEmpty then []
  else
    let centroids := scenes.map fun s => s.centroid
    let eps := eps_factor * avgSceneSize scenes
    let labels := dbscan eps min_samples centroids
    (assignClusters (scenes.zip labels) 0 []).map fun kl => (kl.1, sortByCloud kl.2)

/-- Water detection result dictionary of detect_water_extent in
select_scenes_flood_aware.py (lines 48-54). -/
structure WaterResult where
  water_pct : ℚ
  clear_pct : ℚ
  water_pixels : ℕ
  clear_pixels : ℕ
  total_pixels : ℕ
deriving DecidableEq

/-- Initial zeroed result dictionary of detect_water_extent. -/
def zeroWaterResult : WaterResult :=
  { water_pct := 0, clear_pct := 0, water_pixels := 0, clear_pixels := 0, total_pixels := 0 }

/-- File-system and GDAL environment of one scene, as seen by
detect_water_extent: existence of the two input files, the NIR band read from
the scene TIFF (none when gdal.Open returns None), and the clear and cloud mask
bands read from the UDM2 file (none when gdal.Open returns None).  Raster bands
are pixel lists. -/
structure SceneFiles where
  tifExists : Bool
  udm2Exists : Bool
  nirBand : Option (List ℤ)
  udm2Bands : Option (List ℕ × List ℕ)
deriving DecidableEq

/-- Mask arithmetic of detect_water_extent (lines 89-109).  The numpy elementwise
operations require equal shapes; mismatched shapes raise an exception, modelled
by the error case.  Clear pixels satisfy clear mask 1, cloud mask 0 and positive
NIR; water pixels are clear pixels with NIR below the threshold. -/
def detectCompute (nir : List ℤ) (clear_mask cloud_mask : List ℕ) (nir_threshold : ℤ) :
    Except String WaterResult :=
  if nir.length = clear_mask.length ∧ nir.length = cloud_mask.length then
    let total_pixels := nir.length
    let pix := nir.zip (clear_mask.zip cloud_mask)
    let clear_pixels :=
      pix.countP fun p => (p.2.1 == 1) && (p.2.2 == 0) && decide (0 < p.1)
    let water_pixels :=
      pix.countP fun p =>
        (p.2.1 == 1) && (p.2.2 == 0) && decide (0 < p.1) && decide (p.1 < nir_threshold)
    .ok
      { water_pct := if 0 < clear_pixels then ((water_pixels : ℚ) / (clear_pixels : ℚ)) * 100 else 0
        clear_pct := if 0 < total_pixels then ((clear_pixels : ℚ) / (total_pixels : ℚ)) * 100 else 0
        water_pixels := water_pixels
        clear_pixels := clear_pixels
        total_pixels := total_pixels }
  else
    .error "operands could not be broadcast together"

/-- Body of the try block of detect_water_extent (lines 65-109): a gdal.Open
returning None leads to an early return of the zeroed result; otherwise the mask
arithmetic runs and may raise. -/
def detect_water_extent_try (files : SceneFiles) (nir_threshold : ℤ) :
    Except String WaterResult :=
  match files.nirBand with
  | none => .ok zeroWaterResult
  | some nir =>
    match files.udm2Bands with
    | none => .ok zeroWaterResult
    | some (clear_mask, cloud_mask) => detectCompute nir clear_mask cloud_mask nir_threshold

/-- Water detection of select_scenes_flood_aware.py (lines 30-114): missing
files return the zeroed result; any exception inside the try block is caught and
the zeroed result is returned, because the result dictionary is only written
after every fallible numpy operation has succeeded. -/
def detect_water_extent (files : SceneFiles) (nir_threshold : ℤ) : WaterResult :=
  if !files.tifExists then zeroWaterResult
  else if !files.udm2Exists then zeroWaterResult
  else
    match detect_water_extent_try files nir_threshold with
    | .ok r => r
    | .error _ => zeroWaterResult

/-- Per-scene selection decision of select_scenes_flood_aware.py (lines 191-209):
accepted with reason low_cloud when the cloud percentage is at most the
threshold, otherwise accepted with reason high_cloud_water when the detected
water percentage reaches the minimum, otherwise rejected. -/
def floodDecision (cloud_cover cloud_max water_pct min_water_pct : ℚ) : Bool × String :=
  if cloud_cover ≤ cloud_max then (true, "low_cloud")
  else if water_pct ≥ min_water_pct then (true, "high_cloud_water")
  else (false, "high_cloud_no_water")

/-- Suffix that identifies metadata files in both selection scripts. -/
def metadataSuffix : String := "_metadata.json"

/-- String suffix test modelling the Python endswith, at the level of character
lists. -/
def endsWithPy (s suf : String) : Bool := List.isSuffixOf suf.data s.data

/-- String comparison modelling the Python string order: lexicographic on code
points, here on character lists. -/
def pyStrLe (a b : String) : Prop := a.data ≤ b.data

instance : DecidableRel pyStrLe := fun a b => inferInstanceAs (Decidable (a.data ≤ b.data))

instance : IsTotal String pyStrLe := ⟨fun a b => le_total a.data b.data⟩

instance : IsTrans String pyStrLe := ⟨fun _ _ _ hab hbc => le_trans hab hbc⟩

/-- Stable sort of file names, modelling the Python sorted builtin on strings. -/
def sortedListing (listing : List String) : List String :=
  List.insertionSort pyStrLe listing

/-- Metadata of one scene as read by select_scenes_flood_aware.py: the optional
cloud_cover property of the metadata JSON, and the raster environment of the
scene imagery files. -/
structure FloodMeta where
  cloud_cover : Option ℚ
  files : SceneFiles
deriving DecidableEq

/-- Processing of one metadata file by the loop of select_scenes_flood_aware
(lines 171-215): the cloud cover percentage is the cloud_cover property times
100, defaulting to 1.0 when absent; water detection runs on the scene imagery
files; the decision and its reason follow from floodDecision. -/
def floodSceneEntry (meta : String → FloodMeta) (cloud_max : ℚ) (nir_threshold : ℤ)
    (min_water_pct : ℚ) (f : String) : String × Bool × String :=
  (f, floodDecision (((meta f).cloud_cover.getD 1) * 100) cloud_max
        (detect_water_extent (meta f).files nir_threshold).water_pct min_water_pct)

/-- Main loop of select_scenes_flood_aware in select_scenes_flood_aware.py
(lines 117-259), as the per-scene decision trace: metadata files of the input
directory, sorted, each mapped to its selection decision. -/
def select_scenes_flood_aware (listing : List String) (meta : String → FloodMeta)
    (cloud_max : ℚ) (nir_threshold : ℤ) (min_water_pct : ℚ) :
    List (String × Bool × String) :=
  (sortedListing (listing.filter fun f => endsWithPy f metadataSuffix)).map
    (floodSceneEntry meta cloud_max nir_threshold min_water_pct)

/-- Metadata of one scene as read by select_scenes_to_shp.py: the optional
cloud_cover property (a decimal in 0-1), whether the companion STAC JSON file
exists, and whether it carries a nonempty first coordinate ring. -/
structure PSMeta where
  cloud_cover : Option ℚ
  hasStac : Bool
  hasCoords : Bool
deriving DecidableEq

/-- Main loop of select_scenes_to_shapefile in select_scenes_to_shp.py
(lines 52-94), over the sorted directory listing: returns the list of metadata
files evaluated, the list of those passing the cloud threshold, and the count of
records actually written (which additionally needs the STAC geometry). -/
def select_scenes_loop (meta : String → PSMeta) (cloud_threshold : ℚ) :
    List String → List String × List String × ℕ
  | [] => ([], [], 0)
  | f :: rest =>
    if endsWithPy f metadataSuffix then
      if ((meta f).cloud_cover.getD 1) ≤ cloud_threshold then
        (f :: (select_scenes_loop meta cloud_threshold rest).1,
          f :: (select_scenes_loop meta cloud_threshold rest).2.1,
          if (meta f).hasStac && (meta f).hasCoords then
            (select_scenes_loop meta cloud_threshold rest).2.2 + 1
          else (select_scenes_loop meta cloud_threshold rest).2.2)
      else (f :: (select_scenes_loop meta cloud_threshold rest).1,
        (select_scenes_loop meta cloud_threshold rest).2.1,
        (select_scenes_loop meta cloud_threshold rest).2.2)
    else select_scenes_loop meta cloud_threshold rest

/-- Scene selection of select_scenes_to_shp.py (lines 18-104): the directory
listing is sorted, then each metadata file is evaluated against the threshold
cloud_max divided by 100. -/
def select_scenes_to_shapefile (listing : List String) (meta : String → PSMeta)
    (cloud_max : ℚ) : List String × List String × ℕ :=
  select_scenes_loop meta (cloud_max / 100) (sortedListing listing)

/-- Default OTB mosaic binary path of generate_mosaic_script (line 191). -/
def otbDefaultPath : String := "/Users/macbook/OTB-8.1.2-Darwin64/bin/otbcli_Mosaic"

/-- Rounding to the nearest integer with ties to even, modelling the Python
fixed-point formatting with zero digits used in the cluster comment lines. -/
def roundHalfEven (q : ℚ) : ℤ :=
  if q - ⌊q⌋ < 1 / 2 then ⌊q⌋
  else if 1 / 2 < q - ⌊q⌋ then ⌊q⌋ + 1
  else if ⌊q⌋ % 2 = 0 then ⌊q⌋ else ⌊q⌋ + 1

/-- Zero-digit fixed-point formatting of a rational. -/
def fmt0 (q : ℚ) : String := toString (roundHalfEven q)

/-- Maximum cloud cover of a scene list, as the Python max builtin over a
nonempty generator (line 261 of mosaic_by_geojson.py). -/
def maxCloud {Poly : Type} : List (Scene Poly) → ℚ
  | [] => 0
  | s :: rest => rest.foldl (fun m t => max m t.cloud_cov) s.cloud_cov

/-- Minimum cloud cover of a scene list, as the Python min builtin over a
nonempty generator (line 261 of mosaic_by_geojson.py). -/
def minCloud {Poly : Type} : List (Scene Poly) → ℚ
  | [] => 0
  | s :: rest => rest.foldl (fun m t => min m t.cloud_cov) s.cloud_cov

/-- Cluster comment line of generate_mosaic_script (lines 260-263). -/
def clusterComment {Poly : Type} (e : String × List (Scene Poly)) : String :=
  "# " ++ e.1 ++ ": " ++ toString e.2.length ++ " scenes (cloud cover: " ++
    fmt0 (maxCloud e.2) ++ "% -> " ++ fmt0 (minCloud e.2) ++ "%)"

/-- Argument lines of one mosaic_cluster invocation (lines 268-273 of
mosaic_by_geojson.py): every tif file name on its own quoted line, each but the
last continued by a backslash. -/
def tifArgLines : List String → List String
  | [] => []
  | [t] => ["    \"" ++ t ++ "\""]
  | t :: u :: rest => ("    \"" ++ t ++ "\" \\") :: tifArgLines (u :: rest)

/-- Script block of one cluster (lines 258-275 of mosaic_by_geojson.py): comment
line, mosaic_cluster invocation line, argument lines, blank line. -/
def clusterBlock {Poly : Type} (e : String × List (Scene Poly)) : List String :=
  [clusterComment e, "mosaic_cluster " ++ e.1 ++ " \\"] ++
    tifArgLines (e.2.map Scene.tif_file) ++ [""]

/-- Fixed header lines of generate_mosaic_script (lines 195-253), as a function
of the input directory, output directory, AOI name and OTB binary path. -/
def scriptHeader (data_dir output_dir aoi_name otb_path : String) : List String :=
  [ "#!/bin/bash",
    "#",
    "# Auto-generated mosaic script for " ++ aoi_name,
    "# Scenes filtered by GeoJSON boundary and clustered spatially",
    "#",
    "",
    "# Configuration",
    "OTB_MOSAIC=\"" ++ otb_path ++ "\"",
    "INPUT_DIR=\"" ++ data_dir ++ "\"",
    "OUTPUT_DIR=\"" ++ output_dir ++ "\"",
    "",
    "# Create output directory",
    "mkdir -p \"$OUTPUT_DIR\"",
    "",
    "echo \"==========================================\"",
    "echo \"PlanetScope Mosaic - " ++ aoi_name ++ "\"",
    "echo \"Scenes ordered by cloud cover (highest first = bottom)\"",
    "echo \"==========================================\"",
    "echo \"Input directory: $INPUT_DIR\"",
    "echo \"Output directory: $OUTPUT_DIR\"",
    "echo \"\"",
    "",
    "# Function to mosaic a cluster",
    "mosaic_cluster() \x7b",
    "    local cluster=$1",
    "    shift",
    "    local files=(\"$@\")",
    "",
    "    echo \"Processing Cluster $cluster ($\x7b#files[@]\x7d scenes)...\"",
    "",
    "    # Build input list",
    "    local input_files=\"\"",
    "    for f in \"$\x7bfiles[@]\x7d\"; do",
    "        input_files=\"$input_files \\\"$INPUT_DIR/$f\\\"\"",
    "    done",
    "",
    "    local output_file=\"$OUTPUT_DIR/mosaic_$\x7bcluster\x7d.tif\"",
    "",
    "    # Run OTB Mosaic",
    "    eval \"$OTB_MOSAIC\" \\",
    "        -il $input_files \\",
    "        -out \"\\\"$output_file\\\"\" uint16 \\",
    "        -comp.feather large \\",
    "        -harmo.method band \\",
    "        -harmo.cost rmse \\",
    "        -interpolator nn \\",
    "        -nodata 0 \\",
    "        2>&1 | grep -v \"^WARN\"",
    "",
    "    if [ -f \"$output_file\" ]; then",
    "        echo \"  -> Created: $output_file\"",
    "    else",
    "        echo \"  -> ERROR creating mosaic for cluster $cluster\"",
    "    fi",
    "    echo \"\"",
    "\x7d",
    "" ]

/-- Fixed footer lines of generate_mosaic_script (lines 278-285). -/
def scriptFooter : List String :=
  [ "echo \"==========================================\"",
    "echo \"Mosaic complete!\"",
    "echo \"Output files in: $OUTPUT_DIR\"",
    "ls -lh \"$OUTPUT_DIR\"/mosaic_*.tif 2>/dev/null || echo \"No output files found\"",
    "echo \"==========================================\"",
    "" ]

/-- Comparison used to sort clusters by size with largest first (line 256 of
mosaic_by_geojson.py). -/
def sizeGe {Poly : Type} (a b : String × List (Scene Poly)) : Prop :=
  b.2.length ≤ a.2.length

instance {Poly : Type} : DecidableRel (@sizeGe Poly) :=
  fun a b => inferInstanceAs (Decidable (b.2.length ≤ a.2.length))

instance {Poly : Type} : IsTotal (String × List (Scene Poly)) sizeGe :=
  ⟨fun a b => Nat.le_total b.2.length a.2.length⟩

instance {Poly : Type} : IsTrans (String × List (Scene Poly)) sizeGe :=
  ⟨fun _ _ _ hab hbc => le_trans hbc hab⟩

/-- Stable descending sort of the cluster map by cluster size, modelling the
Python sorted builtin with key len and reverse=True. -/
def sortClustersBySize {Poly : Type} (clusters : List (String × List (Scene Poly))) :
    List (String × List (Scene Poly)) :=
  List.insertionSort sizeGe clusters

/-- Script generation of generate_mosaic_script in mosaic_by_geojson.py
(lines 179-294), as the list of emitted script lines: header, then one block per
cluster in descending size order, then footer.  The output directory is the
joined path of the data directory and the mosaic folder name. -/
def generate_mosaic_script {Poly : Type} (clusters : List (String × List (Scene Poly)))
    (data_dir aoi_name : String) (otb_path : Option String) : List String :=
  let otb := otb_path.getD otbDefaultPath
  let output_dir := data_dir ++ "/mosaic_" ++ aoi_name
  ((sortClustersBySize clusters).foldl (fun acc c => acc ++ clusterBlock c)
      (scriptHeader data_dir output_dir aoi_name otb)) ++ scriptFooter

/-- Invocation line test: a script line invokes the mosaic_cluster function when
it starts with the function name followed by a space. -/
def lineIsInvocation (l : String) : Bool :=
  List.isPrefixOf "mosaic_cluster ".data l.data

/-- Concrete scene used by the clustering witnesses. -/
def wScene : Scene Unit := ⟨"s1", "s1.tif", 0, 0, (0, 0), (0, 0), ()⟩

/-- Concrete stand-in for the DBSCAN routine that marks every point as noise. -/
def wdbNoise : ℚ → ℕ → List (ℚ × ℚ) → List ℤ := fun _ _ pts => pts.map fun _ => -1

/-! Helper lemmas. -/

/-- The accumulate-with-append loop equals filter with the accumulator in front. -/
theorem foldl_if_append_eq_filter {α : Type _} (p : α → Bool) (l : List α) :
    ∀ acc : List α,
      l.foldl (fun a s => if p s then a ++ [s] else a) acc = acc ++ l.filter p := by
  induction l with
  | nil => intro acc; simp
  | cons s rest ih =>
    intro acc
    by_cases h : p s
    · simp [List.foldl_cons, h, List.filter_cons, ih]
    · simp [List.foldl_cons, h, List.filter_cons, ih]

/-- The boundary filter is the list filter by the intersection test. -/
theorem filter_scenes_by_boundary_eq_filter {Poly Bound : Type}
    (intersects : Poly → Bound → Bool) (scenes : List (Scene Poly)) (boundary : Bound) :
    filter_scenes_by_boundary intersects scenes boundary
      = scenes.filter fun s => intersects s.polygon boundary := by
  unfold filter_scenes_by_boundary
  simpa using foldl_if_append_eq_filter (fun s : Scene Poly => intersects s.polygon boundary)
    scenes []

/-! Claim theorems. -/

/-- Claim C1: a scene processed by select_scenes_flood_aware is accepted if and
only if its cloud cover percentage is at most cloud_max, or its cloud cover
percentage exceeds cloud_max and its detected water percentage is at least
min_water_pct; a scene failing both conditions is rejected. -/
theorem select_scenes_flood_aware_accept_iff (listing : List String)
    (meta : String → FloodMeta) (cloud_max : ℚ) (nir_threshold : ℤ) (min_water_pct : ℚ)
    (f : String) (sel : Bool) (reason : String)
    (h : (f, sel, reason) ∈
      select_scenes_flood_aware listing meta cloud_max nir_threshold min_water_pct) :
    sel = true ↔
      ((meta f).cloud_cover.getD 1) * 100 ≤ cloud_max ∨
        (cloud_max < ((meta f).cloud_cover.getD 1) * 100 ∧
          min_water_pct ≤ (detect_water_extent (meta f).files nir_threshold).water_pct) := by
  unfold select_scenes_flood_aware at h
  simp only [List.mem_map] at h
  obtain ⟨g, -, he⟩ := h
  unfold floodSceneEntry at he
  injection he with h1 h2
  subst h1
  unfold floodDecision at h2
  split_ifs at h2 with hc hw
  · injection h2 with hsel _
    subst hsel
    exact iff_of_true rfl (Or.inl hc)
  · injection h2 with hsel _
    subst hsel
    exact iff_of_true rfl (Or.inr ⟨lt_of_not_le hc, hw⟩)
  · injection h2 with hsel _
    subst hsel
    refine iff_of_false (by decide) ?_
    rintro (hcl | ⟨-, hwl⟩)
    · exact hc hcl
    · exact hw hwl

/-- Witness for the claim C1 theorem: a concrete scene with absent cloud_cover
property (treated as full cloud) and missing imagery files is rejected. -/
theorem select_scenes_flood_aware_accept_iff_witness :
    (("a_metadata.json", false, "high_cloud_no_water") ∈
        select_scenes_flood_aware ["a_metadata.json"]
          (fun _ => ⟨none, ⟨false, false, none, none⟩⟩) 80 1000 1) ∧
      (false = true ↔ (1 : ℚ) * 100 ≤ 80 ∨ (80 < (1 : ℚ) * 100 ∧ (1 : ℚ) ≤ 0)) := by
  have hdec : floodDecision ((1 : ℚ) * 100) 80 0 1 = (false, "high_cloud_no_water") := by
    unfold floodDecision
    rw [if_neg (by norm_num), if_neg (by norm_num)]
  have hmem : ("a_metadata.json", false, "high_cloud_no_water") ∈
      select_scenes_flood_aware ["a_metadata.json"]
        (fun _ => ⟨none, ⟨false, false, none, none⟩⟩) 80 1000 1 := by
    have hfil : List.filter (fun f => endsWithPy f metadataSuffix) ["a_metadata.json"]
        = ["a_metadata.json"] := by decide
    have hsort : sortedListing ["a_metadata.json"] = ["a_metadata.json"] := by decide
    have hentry : floodSceneEntry (fun _ => (⟨none, ⟨false, false, none, none⟩⟩ : FloodMeta))
        80 1000 1 "a_metadata.json" = ("a_metadata.json", false, "high_cloud_no_water") := by
      show ("a_metadata.json", floodDecision ((1 : ℚ) * 100) 80 0 1) = _
      rw [hdec]
    unfold select_scenes_flood_aware
    rw [hfil, hsort]
    simp only [List.map_cons, List.map_nil]
    rw [hentry]
    exact List.mem_singleton.mpr rfl
  exact ⟨hmem, select_scenes_flood_aware_accept_iff ["a_metadata.json"]
    (fun _ => ⟨none, ⟨false, false, none, none⟩⟩) 80 1000 1
    "a_metadata.json" false "high_cloud_no_water" hmem⟩

/-- Claim C2: the boundary filter returns exactly the subsequence of input
scenes whose footprint polygon intersects the boundary, with each kept record
unchanged and the input order preserved. -/
theorem filter_scenes_by_boundary_spec {Poly Bound : Type}
    (intersects : Poly → Bound → Bool) (scenes : List (Scene Poly)) (boundary : Bound) :
    filter_scenes_by_boundary intersects scenes boundary
        = scenes.filter (fun s => intersects s.polygon boundary) ∧
      (filter_scenes_by_boundary intersects scenes boundary).Sublist scenes ∧
      ∀ s : Scene Poly,
        s ∈ filter_scenes_by_boundary intersects scenes boundary ↔
          s ∈ scenes ∧ intersects s.polygon boundary = true := by
  refine ⟨filter_scenes_by_boundary_eq_filter intersects scenes boundary, ?_, ?_⟩
  · rw [filter_scenes_by_boundary_eq_filter]
    exact List.filter_sublist scenes
  · intro s
    rw [filter_scenes_by_boundary_eq_filter]
    exact List.mem_filter

/-- Claim C7: the filtering logic is deterministic; equal inputs give equal
boundary-filter outputs, and equal cloud-cover and water values give the same
flood-aware decision with the same reason. -/
theorem filtering_deterministic {Poly Bound : Type} (intersects : Poly → Bound → Bool)
    (scenes₁ scenes₂ : List (Scene Poly)) (b₁ b₂ : Bound)
    (hs : scenes₁ = scenes₂) (hb : b₁ = b₂)
    (c c' w w' cloud_max min_water : ℚ) (hc : c = c') (hw : w = w') :
    filter_scenes_by_boundary intersects scenes₁ b₁
        = filter_scenes_by_boundary intersects scenes₂ b₂ ∧
      floodDecision c cloud_max w min_water = floodDecision c' cloud_max w' min_water := by
  subst hs; subst hb; subst hc; subst hw
  exact ⟨rfl, rfl⟩

/-- Witness for the claim C7 theorem at concrete inputs. -/
theorem filtering_deterministic_witness :
    (([] : List (Scene Unit)) = []) ∧ (() = ()) ∧ ((90 : ℚ) = 90) ∧ ((5 : ℚ) = 5) ∧
      (filter_scenes_by_boundary (fun (_ : Unit) (_ : Unit) => true) [] ()
          = filter_scenes_by_boundary (fun _ _ => true) [] () ∧
        floodDecision 90 80 5 1 = floodDecision 90 80 5 1) :=
  ⟨rfl, rfl, rfl, rfl,
    filtering_deterministic (fun _ _ => true) [] [] () () rfl rfl 90 90 5 5 80 1 rfl rfl⟩

/-- Claim C10: the empty scene list yields the empty cluster map, for every
eps_factor and min_samples, without any library call. -/
theorem cluster_scenes_nil {Poly : Type} (dbscan : ℚ → ℕ → List (ℚ × ℚ) → List ℤ)
    (eps_factor : ℚ) (min_samples : ℕ) :
    cluster_scenes dbscan ([] : List (Scene Poly)) eps_factor min_samples = [] := rfl

/-- Evaluated files of the selection loop of select_scenes_to_shp.py: exactly
the metadata files, in listing order. -/
theorem select_scenes_loop_fst (meta : String → PSMeta) (thr : ℚ) (l : List String) :
    (select_scenes_loop meta thr l).1 = l.filter fun f => endsWithPy f metadataSuffix := by
  induction l with
  | nil => rfl
  | cons f rest ih =>
    simp only [select_scenes_loop]
    by_cases h1 : endsWithPy f metadataSuffix
    · have hf : List.filter (fun g => endsWithPy g metadataSuffix) (f :: rest)
          = f :: List.filter (fun g => endsWithPy g metadataSuffix) rest :=
        List.filter_cons_of_pos h1
      rw [hf]
      by_cases h2 : ((meta f).cloud_cover.getD 1) ≤ thr
      · rw [if_pos h1, if_pos h2]
        exact congrArg (List.cons f) ih
      · rw [if_pos h1, if_neg h2]
        exact congrArg (List.cons f) ih
    · have hf : List.filter (fun g => endsWithPy g metadataSuffix) (f :: rest)
          = List.filter (fun g => endsWithPy g metadataSuffix) rest :=
        List.filter_cons_of_neg h1
      rw [if_neg h1, hf]
      exact ih

/-- Cloud-filtered files of the selection loop of select_scenes_to_shp.py:
the metadata files whose cloud cover passes the threshold. -/
theorem select_scenes_loop_snd (meta : String → PSMeta) (thr : ℚ) (l : List String) :
    (select_scenes_loop meta thr l).2.1
      = (l.filter fun f => endsWithPy f metadataSuffix).filter
          (fun f => decide (((meta f).cloud_cover.getD 1) ≤ thr)) := by
  induction l with
  | nil => rfl
  | cons f rest ih =>
    simp only [select_scenes_loop]
    by_cases h1 : endsWithPy f metadataSuffix
    · have hf : List.filter (fun g => endsWithPy g metadataSuffix) (f :: rest)
          = f :: List.filter (fun g => endsWithPy g metadataSuffix) rest :=
        List.filter_cons_of_pos h1
      rw [hf]
      by_cases h2 : ((meta f).cloud_cover.getD 1) ≤ thr
      · have hc : List.filter (fun g => decide (((meta g).cloud_cover.getD 1) ≤ thr))
            (f :: List.filter (fun g => endsWithPy g metadataSuffix) rest)
            = f :: List.filter (fun g => decide (((meta g).cloud_cover.getD 1) ≤ thr))
                (List.filter (fun g => endsWithPy g metadataSuffix) rest) :=
          List.filter_cons_of_pos (decide_eq_true h2)
        rw [hc, if_pos h1, if_pos h2]
        exact congrArg (List.cons f) ih
      · have hc : List.filter (fun g => decide (((meta g).cloud_cover.getD 1) ≤ thr))
            (f :: List.filter (fun g => endsWithPy g metadataSuffix) rest)
            = List.filter (fun g => decide (((meta g).cloud_cover.getD 1) ≤ thr))
                (List.filter (fun g => endsWithPy g metadataSuffix) rest) :=
          List.filter_cons_of_neg (by simpa using h2)
        rw [hc, if_pos h1, if_neg h2]
        exact ih
    · have hf : List.filter (fun g => endsWithPy g metadataSuffix) (f :: rest)
          = List.filter (fun g => endsWithPy g metadataSuffix) rest :=
        List.filter_cons_of_neg h1
      rw [if_neg h1, hf]
      exact ih

/-- Claim C6: select_scenes_to_shapefile is single-pass, evaluating each
metadata file of the listing exactly once in sorted filename order, and a scene
passes the cloud filter if and only if its cloud_cover value, defaulting to 1.0
when absent, is at most cloud_max divided by 100. -/
theorem select_scenes_to_shapefile_spec (listing : List String) (meta : String → PSMeta)
    (cloud_max : ℚ) (hnd : listing.Nodup) :
    (select_scenes_to_shapefile listing meta cloud_max).1
        = (sortedListing listing).filter (fun f => endsWithPy f metadataSuffix) ∧
      (select_scenes_to_shapefile listing meta cloud_max).1.Nodup ∧
      List.Sorted pyStrLe (select_scenes_to_shapefile listing meta cloud_max).1 ∧
      (∀ f, f ∈ (select_scenes_to_shapefile listing meta cloud_max).1 ↔
        f ∈ listing ∧ endsWithPy f metadataSuffix = true) ∧
      (∀ f, f ∈ (select_scenes_to_shapefile listing meta cloud_max).2.1 ↔
        f ∈ (select_scenes_to_shapefile listing meta cloud_max).1 ∧
          ((meta f).cloud_cover.getD 1) ≤ cloud_max / 100) := by
  have h1 := select_scenes_loop_fst meta (cloud_max / 100) (sortedListing listing)
  have h2 := select_scenes_loop_snd meta (cloud_max / 100) (sortedListing listing)
  have hperm : (sortedListing listing).Perm listing := List.perm_insertionSort pyStrLe listing
  have hproc : (select_scenes_to_shapefile listing meta cloud_max).1
      = (sortedListing listing).filter (fun f => endsWithPy f metadataSuffix) := h1
  refine ⟨hproc, ?_, ?_, ?_, ?_⟩
  · rw [hproc]
    exact (hperm.nodup_iff.mpr hnd).filter _
  · rw [hproc]
    exact (List.sorted_insertionSort pyStrLe listing).filter _
  · intro f
    rw [hproc, List.mem_filter, hperm.mem_iff]
  · intro f
    have hsel : (select_scenes_to_shapefile listing meta cloud_max).2.1
        = ((sortedListing listing).filter fun f => endsWithPy f metadataSuffix).filter
            (fun f => decide (((meta f).cloud_cover.getD 1) ≤ cloud_max / 100)) := h2
    rw [hsel, List.mem_filter, hproc, decide_eq_true_eq]

/-- Witness for the claim C6 theorem on a concrete three-file directory. -/
theorem select_scenes_to_shapefile_spec_witness :
    (["b_metadata.json", "a_metadata.json", "c.txt"] : List String).Nodup ∧
      ((select_scenes_to_shapefile ["b_metadata.json", "a_metadata.json", "c.txt"]
            (fun _ => ⟨none, false, false⟩) 50).1
          = (sortedListing ["b_metadata.json", "a_metadata.json", "c.txt"]).filter
              (fun f => endsWithPy f metadataSuffix) ∧
        (select_scenes_to_shapefile ["b_metadata.json", "a_metadata.json", "c.txt"]
            (fun _ => ⟨none, false, false⟩) 50).1.Nodup ∧
        List.Sorted pyStrLe
          (select_scenes_to_shapefile ["b_metadata.json", "a_metadata.json", "c.txt"]
            (fun _ => ⟨none, false, false⟩) 50).1 ∧
        (∀ f, f ∈ (select_scenes_to_shapefile ["b_metadata.json", "a_metadata.json", "c.txt"]
              (fun _ => ⟨none, false, false⟩) 50).1 ↔
          f ∈ ["b_metadata.json", "a_metadata.json", "c.txt"] ∧
            endsWithPy f metadataSuffix = true) ∧
        (∀ f, f ∈ (select_scenes_to_shapefile ["b_metadata.json", "a_metadata.json", "c.txt"]
              (fun _ => ⟨none, false, false⟩) 50).2.1 ↔
          f ∈ (select_scenes_to_shapefile ["b_metadata.json", "a_metadata.json", "c.txt"]
              (fun _ => ⟨none, false, false⟩) 50).1 ∧
            (((fun _ : String => (⟨none, false, false⟩ : PSMeta)) f).cloud_cover.getD 1)
              ≤ 50 / 100)) :=
  ⟨by decide,
    select_scenes_to_shapefile_spec ["b_metadata.json", "a_metadata.json", "c.txt"]
      (fun _ => ⟨none, false, false⟩) 50 (by decide)⟩

/-- Claim C8: detect_water_extent never propagates an exception (a failing try
body yields the zeroed result), returns the zeroed default whenever an input
file is missing or cannot be opened, and consequently a scene with cloud cover
above cloud_max whose imagery files are missing is rejected whenever
min_water_pct is positive. -/
theorem detect_water_extent_default (files : SceneFiles) (nir_threshold : ℤ)
    (cloud_cover cloud_max min_water_pct : ℚ)
    (hmiss : files.tifExists = false ∨ files.udm2Exists = false ∨
      files.nirBand = none ∨ files.udm2Bands = none)
    (hcc : cloud_max < cloud_cover) (hmw : 0 < min_water_pct) :
    (∀ (g : SceneFiles) (t : ℤ) (e : String),
        detect_water_extent_try g t = .error e → detect_water_extent g t = zeroWaterResult) ∧
      detect_water_extent files nir_threshold = zeroWaterResult ∧
      floodDecision cloud_cover cloud_max
          (detect_water_extent files nir_threshold).water_pct min_water_pct
        = (false, "high_cloud_no_water") := by
  have hcatch : ∀ (g : SceneFiles) (t : ℤ) (e : String),
      detect_water_extent_try g t = .error e → detect_water_extent g t = zeroWaterResult := by
    intro g t e he
    cases htif : g.tifExists <;> cases hudm : g.udm2Exists <;>
      simp [detect_water_extent, htif, hudm, he]
  have hzero : detect_water_extent files nir_threshold = zeroWaterResult := by
    rcases hmiss with h | h | h | h
    · simp [detect_water_extent, h]
    · cases htif : files.tifExists <;> simp [detect_water_extent, htif, h]
    · cases htif : files.tifExists <;> cases hudm : files.udm2Exists <;>
        simp [detect_water_extent, detect_water_extent_try, htif, hudm, h]
    · cases htif : files.tifExists <;> cases hudm : files.udm2Exists <;>
        cases hnir : files.nirBand <;>
          simp [detect_water_extent, detect_water_extent_try, htif, hudm, hnir, h]
  refine ⟨hcatch, hzero, ?_⟩
  rw [hzero]
  show floodDecision cloud_cover cloud_max (0 : ℚ) min_water_pct = _
  unfold floodDecision
  rw [if_neg (not_le_of_lt hcc), if_neg (not_le.mpr hmw)]

/-- Witness for the claim C8 theorem: a scene whose TIFF file is missing, with
cloud cover 90 against threshold 80 and minimum water percentage 1. -/
theorem detect_water_extent_default_witness :
    ((⟨false, true, none, none⟩ : SceneFiles).tifExists = false ∨
        (⟨false, true, none, none⟩ : SceneFiles).udm2Exists = false ∨
        (⟨false, true, none, none⟩ : SceneFiles).nirBand = none ∨
        (⟨false, true, none, none⟩ : SceneFiles).udm2Bands = none) ∧
      ((80 : ℚ) < 90) ∧ ((0 : ℚ) < 1) ∧
      ((∀ (g : SceneFiles) (t : ℤ) (e : String),
          detect_water_extent_try g t = .error e → detect_water_extent g t = zeroWaterResult) ∧
        detect_water_extent ⟨false, true, none, none⟩ 1000 = zeroWaterResult ∧
        floodDecision 90 80 (detect_water_extent ⟨false, true, none, none⟩ 1000).water_pct 1
          = (false, "high_cloud_no_water")) :=
  ⟨Or.inl rfl, by decide, by decide,
    detect_water_extent_default ⟨false, true, none, none⟩ 1000 90 80 1
      (Or.inl rfl) (by decide) (by decide)⟩

/-- Inserting one scene into the cluster dictionary appends it to the multiset
of clustered scenes. -/
theorem flatten_addToCluster {Poly : Type} (cs : List (String × List (Scene Poly)))
    (k : String) (s : Scene Poly) :
    ((addToCluster cs k s).map Prod.snd).flatten.Perm
      ((cs.map Prod.snd).flatten ++ [s]) := by
  induction cs with
  | nil => simp [addToCluster]
  | cons e rest ih =>
    obtain ⟨k0, l0⟩ := e
    by_cases h : k0 = k
    · simp only [addToCluster, if_pos h, List.map_cons, List.flatten_cons]
      rw [List.append_assoc, List.append_assoc]
      exact List.Perm.append_left l0 List.perm_append_comm
    · simp only [addToCluster, if_neg h, List.map_cons, List.flatten_cons]
      rw [List.append_assoc]
      exact List.Perm.append_left l0 ih

/-- The cluster assignment loop distributes exactly the incoming scenes over the
cluster dictionary. -/
theorem flatten_assignClusters {Poly : Type} :
    ∀ (pairs : List (Scene Poly × ℤ)) (n : ℕ) (acc : List (String × List (Scene Poly))),
      ((assignClusters pairs n acc).map Prod.snd).flatten.Perm
        ((acc.map Prod.snd).flatten ++ pairs.map Prod.fst) := by
  intro pairs
  induction pairs with
  | nil => intro n acc; simp [assignClusters]
  | cons p rest ih =>
    intro n acc
    obtain ⟨s, label⟩ := p
    by_cases h : label = -1
    · simp only [assignClusters, if_pos h]
      refine (ih _ _).trans ?_
      refine (List.Perm.append_right _ (flatten_addToCluster acc _ s)).trans ?_
      rw [List.append_assoc]
      simp
    · simp only [assignClusters, if_neg h]
      refine (ih _ _).trans ?_
      refine (List.Perm.append_right _ (flatten_addToCluster acc _ s)).trans ?_
      rw [List.append_assoc]
      simp

/-- Key list of the cluster dictionary after one insertion. -/
theorem keys_addToCluster {Poly : Type} (cs : List (String × List (Scene Poly)))
    (k : String) (s : Scene Poly) :
    (addToCluster cs k s).map Prod.fst
      = if k ∈ cs.map Prod.fst then cs.map Prod.fst else cs.map Prod.fst ++ [k] := by
  induction cs with
  | nil => simp [addToCluster]
  | cons e rest ih =>
    obtain ⟨k0, l0⟩ := e
    by_cases h : k0 = k
    · subst h
      simp [addToCluster]
    · simp only [addToCluster, if_neg h, List.map_cons, ih]
      by_cases hm : k ∈ rest.map Prod.fst
      · rw [if_pos hm, if_pos (List.mem_cons_of_mem _ hm)]
      · rw [if_neg hm, if_neg ?_]
        · rfl
        · intro hk
          rcases List.mem_cons.mp hk with h' | h'
          · exact h h'.symm
          · exact hm h'

/-- Insertion into the cluster dictionary preserves distinctness of keys. -/
theorem keys_nodup_addToCluster {Poly : Type} (cs : List (String × List (Scene Poly)))
    (k : String) (s : Scene Poly) (h : (cs.map Prod.fst).Nodup) :
    ((addToCluster cs k s).map Prod.fst).Nodup := by
  rw [keys_addToCluster]
  split_ifs with hm
  · exact h
  · refine List.Nodup.append h (List.nodup_singleton k) ?_
    intro a ha hb
    rw [List.mem_singleton] at hb
    subst hb
    exact hm ha

/-- The cluster assignment loop preserves distinctness of cluster keys. -/
theorem keys_nodup_assignClusters {Poly : Type} :
    ∀ (pairs : List (Scene Poly × ℤ)) (n : ℕ) (acc : List (String × List (Scene Poly))),
      (acc.map Prod.fst).Nodup → ((assignClusters pairs n acc).map Prod.fst).Nodup := by
  intro pairs
  induction pairs with
  | nil => intro n acc h; exact h
  | cons p rest ih =>
    intro n acc h
    obtain ⟨s, label⟩ := p
    by_cases hl : label = -1
    · simp only [assignClusters, if_pos hl]
      exact ih _ _ (keys_nodup_addToCluster acc _ s h)
    · simp only [assignClusters, if_neg hl]
      exact ih _ _ (keys_nodup_addToCluster acc _ s h)

/-- Sorting each cluster list permutes the multiset of clustered scenes. -/
theorem flatten_sortMap {Poly : Type} (clusters : List (String × List (Scene Poly))) :
    (((clusters.map fun kl => (kl.1, sortByCloud kl.2)).map Prod.snd).flatten).Perm
      ((clusters.map Prod.snd).flatten) := by
  induction clusters with
  | nil => simp
  | cons e rest ih =>
    simp only [List.map_cons, List.flatten_cons, sortByCloud]
    exact (List.perm_insertionSort cloudGe e.2).append ih

/-- Sorting each cluster list leaves the cluster keys unchanged. -/
theorem keys_sortMap {Poly : Type} (clusters : List (String × List (Scene Poly))) :
    (clusters.map fun kl => (kl.1, sortByCloud kl.2)).map Prod.fst
      = clusters.map Prod.fst := by
  induction clusters with
  | nil => rfl
  | cons e rest ih => simp [ih]

/-- Unfolding of cluster_scenes on a nonempty scene list: the DBSCAN library
routine is called with eps equal to eps_factor times the average scene size, on
the scene centroids, and the resulting labels drive the cluster assignment. -/
theorem cluster_scenes_eq {Poly : Type} (dbscan : ℚ → ℕ → List (ℚ × ℚ) → List ℤ)
    (scenes : List (Scene Poly)) (eps_factor : ℚ) (min_samples : ℕ)
    (hne : scenes ≠ []) :
    cluster_scenes dbscan scenes eps_factor min_samples
      = (assignClusters
          (scenes.zip (dbscan (eps_factor * avgSceneSize scenes) min_samples
            (scenes.map fun s => s.centroid))) 0 []).map
          (fun kl => (kl.1, sortByCloud kl.2)) := by
  have hemp : scenes.isEmpty = false := by
    cases scenes with
    | nil => exact absurd rfl hne
    | cons a l => rfl
  simp only [cluster_scenes, hemp, Bool.false_eq_true, if_false]

/-- Claim C3: for a nonempty scene list, the cluster map of cluster_scenes is a
partition of the input, given that the DBSCAN library routine returns one label
per point: the clustered scenes are a permutation of the input multiset, the
cluster keys are distinct, no cluster contains a scene outside the input, and
every input scene lies in some cluster. -/
theorem cluster_scenes_partition {Poly : Type} (dbscan : ℚ → ℕ → List (ℚ × ℚ) → List ℤ)
    (scenes : List (Scene Poly)) (eps_factor : ℚ) (min_samples : ℕ)
    (hne : scenes ≠ [])
    (hdb : ∀ (e : ℚ) (m : ℕ) (pts : List (ℚ × ℚ)), (dbscan e m pts).length = pts.length) :
    (((cluster_scenes dbscan scenes eps_factor min_samples).map Prod.snd).flatten).Perm
        scenes ∧
      ((cluster_scenes dbscan scenes eps_factor min_samples).map Prod.fst).Nodup ∧
      (∀ e ∈ cluster_scenes dbscan scenes eps_factor min_samples, ∀ s ∈ e.2, s ∈ scenes) ∧
      (∀ s ∈ scenes, ∃ e ∈ cluster_scenes dbscan scenes eps_factor min_samples, s ∈ e.2) := by
  rw [cluster_scenes_eq dbscan scenes eps_factor min_samples hne]
  have hle : scenes.length ≤
      (dbscan (eps_factor * avgSceneSize scenes) min_samples
        (scenes.map fun s => s.centroid)).length := by
    rw [hdb, List.length_map]
  have hperm : (((assignClusters
      (scenes.zip (dbscan (eps_factor * avgSceneSize scenes) min_samples
        (scenes.map fun s => s.centroid))) 0 []).map
        (fun kl => (kl.1, sortByCloud kl.2))).map Prod.snd).flatten.Perm scenes := by
    refine (flatten_sortMap _).trans ?_
    refine (flatten_assignClusters _ 0 []).trans ?_
    simp only [List.map_nil, List.flatten_nil, List.nil_append]
    rw [List.map_fst_zip scenes _ hle]
  have hkeys : (((assignClusters
      (scenes.zip (dbscan (eps_factor * avgSceneSize scenes) min_samples
        (scenes.map fun s => s.centroid))) 0 []).map
        (fun kl => (kl.1, sortByCloud kl.2))).map Prod.fst).Nodup := by
    rw [keys_sortMap]
    exact keys_nodup_assignClusters _ 0 [] (by simp)
  refine ⟨hperm, hkeys, ?_, ?_⟩
  · intro e he s hs
    exact hperm.mem_iff.mp
      (List.mem_flatten.mpr ⟨e.2, List.mem_map_of_mem Prod.snd he, hs⟩)
  · intro s hs
    obtain ⟨l, hl, hsl⟩ := List.mem_flatten.mp (hperm.mem_iff.mpr hs)
    obtain ⟨e, he, rfl⟩ := List.mem_map.mp hl
    exact ⟨e, he, hsl⟩

/-- Witness for the claim C3 theorem on a one-scene input. -/
theorem cluster_scenes_partition_witness :
    ([wScene] ≠ []) ∧
      (∀ (e : ℚ) (m : ℕ) (pts : List (ℚ × ℚ)), (wdbNoise e m pts).length = pts.length) ∧
      ((((cluster_scenes wdbNoise [wScene] 1 2).map Prod.snd).flatten).Perm [wScene] ∧
        ((cluster_scenes wdbNoise [wScene] 1 2).map Prod.fst).Nodup ∧
        (∀ e ∈ cluster_scenes wdbNoise [wScene] 1 2, ∀ s ∈ e.2, s ∈ [wScene]) ∧
        (∀ s ∈ [wScene], ∃ e ∈ cluster_scenes wdbNoise [wScene] 1 2, s ∈ e.2)) :=
  ⟨by decide, fun e m pts => by simp [wdbNoise],
    cluster_scenes_partition wdbNoise [wScene] 1 2 (by decide)
      (fun e m pts => by simp [wdbNoise])⟩

/-- Claim C4: on a nonempty scene list, cluster_scenes calls the density
clustering library routine with eps equal to eps_factor times the average scene
size, where the average scene size is the mean of the mean bounding-box width
and the mean bounding-box height; the source computation of the average agrees
with the spec wording. -/
theorem cluster_scenes_eps_spec {Poly : Type} (dbscan : ℚ → ℕ → List (ℚ × ℚ) → List ℤ)
    (scenes : List (Scene Poly)) (eps_factor : ℚ) (min_samples : ℕ)
    (hne : scenes ≠ []) :
    cluster_scenes dbscan scenes eps_factor min_samples
        = (assignClusters
            (scenes.zip (dbscan (eps_factor * avgSceneSizeSpec scenes) min_samples
              (scenes.map fun s => s.centroid))) 0 []).map
            (fun kl => (kl.1, sortByCloud kl.2)) ∧
      avgSceneSize scenes = avgSceneSizeSpec scenes := by
  have heq : avgSceneSize scenes = avgSceneSizeSpec scenes := by
    unfold avgSceneSize avgSceneSizeSpec npMean
    simp only [List.sum_cons, List.sum_nil, List.length_cons, List.length_nil]
    push_cast
    ring
  refine ⟨?_, heq⟩
  rw [← heq]
  exact cluster_scenes_eq dbscan scenes eps_factor min_samples hne

/-- Witness for the claim C4 theorem on a one-scene input. -/
theorem cluster_scenes_eps_spec_witness :
    ([wScene] ≠ []) ∧
      (cluster_scenes wdbNoise [wScene] (3 : ℚ) 2
          = (assignClusters
              ([wScene].zip (wdbNoise ((3 : ℚ) * avgSceneSizeSpec [wScene]) 2
                ([wScene].map fun s => s.centroid))) 0 []).map
              (fun kl => (kl.1, sortByCloud kl.2)) ∧
        avgSceneSize [wScene] = avgSceneSizeSpec [wScene]) :=
  ⟨by decide, cluster_scenes_eps_spec wdbNoise [wScene] 3 2 (by decide)⟩

/-- Positional description of the argument lines of a mosaic_cluster invocation:
the line at index i quotes the tif name at index i, continued by a backslash
except on the last line. -/
theorem tifArgLines_get? (ts : List String) :
    ∀ i : ℕ, (tifArgLines ts).get? i
      = (ts.get? i).map
          (fun t => if i + 1 < ts.length then "    \"" ++ t ++ "\" \\"
            else "    \"" ++ t ++ "\"") := by
  induction ts with
  | nil => intro i; rfl
  | cons t rest ih =>
    intro i
    cases rest with
    | nil =>
      cases i with
      | zero =>
        show some ("    \"" ++ t ++ "\"")
          = some (if 0 + 1 < [t].length then "    \"" ++ t ++ "\" \\" else "    \"" ++ t ++ "\"")
        rw [if_neg (by simp)]
      | succ n => rfl
    | cons u rest2 =>
      cases i with
      | zero =>
        show some ("    \"" ++ t ++ "\" \\")
          = some (if 0 + 1 < (t :: u :: rest2).length then "    \"" ++ t ++ "\" \\"
              else "    \"" ++ t ++ "\"")
        rw [if_pos (by simp [List.length_cons])]
      | succ n =>
        have hL : tifArgLines (t :: u :: rest2)
            = ("    \"" ++ t ++ "\" \\") :: tifArgLines (u :: rest2) := rfl
        rw [hL]
        simp only [List.get?_cons_succ]
        rw [ih n]
        cases hx : (u :: rest2).get? n with
        | none => rfl
        | some v =>
          simp only [Option.map_some']
          by_cases hc : n + 1 < (u :: rest2).length
          · rw [if_pos hc, if_pos (by simp only [List.length_cons] at hc ⊢; omega)]
          · rw [if_neg hc, if_neg (by simp only [List.length_cons] at hc ⊢; omega)]

/-- Claim C9: every cluster list in the map returned by cluster_scenes is sorted
by cloud cover in non-increasing order, and the argument lines emitted for a
cluster list the tif file names in exactly that list order, position by
position. -/
theorem cluster_scenes_sorted_and_arg_order {Poly : Type}
    (dbscan : ℚ → ℕ → List (ℚ × ℚ) → List ℤ) (scenes : List (Scene Poly))
    (eps_factor : ℚ) (min_samples : ℕ) :
    ∀ e ∈ cluster_scenes dbscan scenes eps_factor min_samples,
      List.Sorted cloudGe e.2 ∧
      ∀ i : ℕ, (tifArgLines (e.2.map Scene.tif_file)).get? i
        = (e.2.get? i).map (fun s =>
            if i + 1 < e.2.length then "    \"" ++ s.tif_file ++ "\" \\"
            else "    \"" ++ s.tif_file ++ "\"") := by
  intro e he
  have hsorted : List.Sorted cloudGe e.2 := by
    by_cases hne : scenes = []
    · subst hne
      exact absurd he (by simp [cluster_scenes])
    · rw [cluster_scenes_eq dbscan scenes eps_factor min_samples hne] at he
      obtain ⟨kl, hkl, rfl⟩ := List.mem_map.mp he
      exact List.sorted_insertionSort cloudGe kl.2
  refine ⟨hsorted, ?_⟩
  intro i
  rw [tifArgLines_get? (e.2.map Scene.tif_file) i, List.get?_map, List.length_map]
  cases hx : e.2.get? i with
  | none => rfl
  | some s => rfl

/-- Witness for the claim C9 theorem at a concrete one-scene noise cluster. -/
theorem cluster_scenes_sorted_and_arg_order_witness :
    (("single_1", [wScene]) ∈ cluster_scenes wdbNoise [wScene] 1 2) ∧
      (List.Sorted cloudGe ("single_1", [wScene]).2 ∧
        ∀ i : ℕ, (tifArgLines (("single_1", [wScene]).2.map Scene.tif_file)).get? i
          = (("single_1", [wScene]).2.get? i).map (fun s =>
              if i + 1 < ("single_1", [wScene]).2.length then "    \"" ++ s.tif_file ++ "\" \\"
              else "    \"" ++ s.tif_file ++ "\"")) := by
  have heq : cluster_scenes wdbNoise [wScene] 1 2 = [("single_1", [wScene])] := by rfl
  have hmem : ("single_1", [wScene]) ∈ cluster_scenes wdbNoise [wScene] 1 2 := by
    rw [heq]
    exact List.mem_singleton.mpr rfl
  exact ⟨hmem,
    cluster_scenes_sorted_and_arg_order wdbNoise [wScene] 1 2 ("single_1", [wScene]) hmem⟩

/-- A character list is a prefix of itself followed by anything. -/
theorem isPrefixOf_self_append : ∀ (p r : List Char), List.isPrefixOf p (p ++ r) = true := by
  intro p
  induction p with
  | nil => intro r; cases r <;> rfl
  | cons c cs ih =>
    intro r
    show ((c == c) && List.isPrefixOf cs (cs ++ r)) = true
    rw [beq_self_eq_true, ih r]
    rfl

/-- The invocation prefix does not match a character list that starts with a
character other than m. -/
theorem isPrefixOf_mosaic_head_ne (c : Char) (cs : List Char) (h : ¬ c = 'm') :
    List.isPrefixOf "mosaic_cluster ".data (c :: cs) = false := by
  have hm : "mosaic_cluster ".data = 'm' :: "osaic_cluster ".data := rfl
  rw [hm]
  show (('m' == c) && List.isPrefixOf "osaic_cluster ".data cs) = false
  rw [show ('m' == c) = false from beq_eq_false_iff_ne.mpr fun h' => h h'.symm]
  rfl

/-- A line that is the invocation prefix followed by anything is an invocation
line. -/
theorem lineIsInvocation_append_true (r : String) :
    lineIsInvocation ("mosaic_cluster " ++ r) = true := by
  unfold lineIsInvocation
  rw [String.data_append]
  exact isPrefixOf_self_append _ _

/-- A line starting with a character other than m is not an invocation line. -/
theorem lineIsInvocation_head_ne (p q : String) (c : Char) (cs : List Char)
    (hp : p.data = c :: cs) (h : ¬ c = 'm') : lineIsInvocation (p ++ q) = false := by
  unfold lineIsInvocation
  rw [String.data_append, hp, List.cons_append]
  exact isPrefixOf_mosaic_head_ne c (cs ++ q.data) h

/-- A line built from three parts whose first part starts with a character other
than m is not an invocation line. -/
theorem lineIsInvocation_head_ne3 (p q r : String) (c : Char) (cs : List Char)
    (hp : p.data = c :: cs) (h : ¬ c = 'm') : lineIsInvocation (p ++ q ++ r) = false := by
  unfold lineIsInvocation
  rw [String.data_append, String.data_append, hp, List.cons_append, List.cons_append]
  exact isPrefixOf_mosaic_head_ne _ _ h

/-- Every argument line of a mosaic_cluster invocation starts with four spaces
and a quote. -/
theorem tifArgLines_shape : ∀ (ts : List String), ∀ l ∈ tifArgLines ts,
    ∃ r : String, l = "    \"" ++ r := by
  intro ts
  induction ts with
  | nil => intro l hl; exact absurd hl (List.not_mem_nil l)
  | cons t rest ih =>
    cases rest with
    | nil =>
      intro l hl
      rw [List.mem_singleton.mp hl]
      exact ⟨t ++ "\"", rfl⟩
    | cons u rest2 =>
      intro l hl
      rcases List.mem_cons.mp hl with h | h
      · exact ⟨t ++ "\" \\", h⟩
      · exact ih l h

/-- The accumulate-append loop over cluster blocks is the flat map of the block
function. -/
theorem foldl_append_blocks {α β : Type _} (l : List α) (f : α → List β) :
    ∀ init : List β, l.foldl (fun acc c => acc ++ f c) init = init ++ l.flatMap f := by
  induction l with
  | nil => intro init; simp
  | cons c rest ih =>
    intro init
    rw [List.foldl_cons, ih, List.flatMap_cons, List.append_assoc]

/-- Each cluster block contains exactly one mosaic_cluster invocation line. -/
theorem countP_clusterBlock {Poly : Type} (e : String × List (Scene Poly)) :
    (clusterBlock e).countP lineIsInvocation = 1 := by
  have hcomment : lineIsInvocation (clusterComment e) = false := by
    unfold clusterComment
    exact lineIsInvocation_head_ne "# " _ '#' " ".data rfl (by decide)
  have hinv : lineIsInvocation ("mosaic_cluster " ++ e.1 ++ " \\") = true :=
    lineIsInvocation_append_true (e.1 ++ " \\")
  have hargs : (tifArgLines (e.2.map Scene.tif_file)).countP lineIsInvocation = 0 := by
    apply List.countP_eq_zero.mpr
    intro l hl
    obtain ⟨r, rfl⟩ := tifArgLines_shape _ l hl
    rw [lineIsInvocation_head_ne "    \"" r ' ' "   \"".data rfl (by decide)]
    exact Bool.false_ne_true
  unfold clusterBlock
  rw [List.countP_append, List.countP_append]
  rw [List.countP_cons, List.countP_cons, List.countP_nil, hcomment, hinv, hargs]
  decide

/-- The fixed script header contains no mosaic_cluster invocation line. -/
theorem countP_scriptHeader (data_dir output_dir aoi_name otb_path : String) :
    (scriptHeader data_dir output_dir aoi_name otb_path).countP lineIsInvocation = 0 := by
  apply List.countP_eq_zero.mpr
  intro l hl
  simp only [scriptHeader, List.mem_cons, List.not_mem_nil, or_false] at hl
  rcases hl with rfl|rfl|rfl|rfl|rfl|rfl|rfl|rfl|rfl|rfl|rfl|rfl|rfl|rfl|rfl|rfl|rfl|rfl|rfl|rfl|rfl|rfl|rfl|rfl|rfl|rfl|rfl|rfl|rfl|rfl|rfl|rfl|rfl|rfl|rfl|rfl|rfl|rfl|rfl|rfl|rfl|rfl|rfl|rfl|rfl|rfl|rfl|rfl|rfl|rfl|rfl|rfl|rfl|rfl|rfl|rfl|rfl
  all_goals first
    | decide
    | (rw [lineIsInvocation_head_ne "# Auto-generated mosaic script for " aoi_name '#'
          " Auto-generated mosaic script for ".data rfl (by decide)]; decide)
    | (rw [lineIsInvocation_head_ne3 "OTB_MOSAIC=\"" otb_path "\"" 'O'
          "TB_MOSAIC=\"".data rfl (by decide)]; decide)
    | (rw [lineIsInvocation_head_ne3 "INPUT_DIR=\"" data_dir "\"" 'I'
          "NPUT_DIR=\"".data rfl (by decide)]; decide)
    | (rw [lineIsInvocation_head_ne3 "OUTPUT_DIR=\"" output_dir "\"" 'O'
          "UTPUT_DIR=\"".data rfl (by decide)]; decide)
    | (rw [lineIsInvocation_head_ne3 "echo \"PlanetScope Mosaic - " aoi_name "\"" 'e'
          "cho \"PlanetScope Mosaic - ".data rfl (by decide)]; decide)

/-- The fixed script footer contains no mosaic_cluster invocation line. -/
theorem countP_scriptFooter : scriptFooter.countP lineIsInvocation = 0 := by decide

/-- The cluster blocks contain one invocation line per cluster in total. -/
theorem countP_flatMap_blocks {Poly : Type} (sc : List (String × List (Scene Poly))) :
    (sc.flatMap clusterBlock).countP lineIsInvocation = sc.length := by
  induction sc with
  | nil => rfl
  | cons e rest ih =>
    rw [List.flatMap_cons, List.countP_append, countP_clusterBlock, ih, List.length_cons]
    omega

/-- The OTB_MOSAIC assignment line is part of the script header. -/
theorem otb_mem_scriptHeader (data_dir output_dir aoi_name otb_path : String) :
    ("OTB_MOSAIC=\"" ++ otb_path ++ "\"") ∈ scriptHeader data_dir output_dir aoi_name otb_path := by
  unfold scriptHeader
  simp

/-- Structure of generate_mosaic_script: header, one block per cluster in
descending size order, footer. -/
theorem generate_mosaic_script_eq {Poly : Type} (clusters : List (String × List (Scene Poly)))
    (data_dir aoi_name : String) (otb_path : Option String) :
    generate_mosaic_script clusters data_dir aoi_name otb_path
      = scriptHeader data_dir (data_dir ++ "/mosaic_" ++ aoi_name) aoi_name
          (otb_path.getD otbDefaultPath)
          ++ (sortClustersBySize clusters).flatMap clusterBlock ++ scriptFooter := by
  show List.foldl (fun acc c => acc ++ clusterBlock c)
      (scriptHeader data_dir (data_dir ++ "/mosaic_" ++ aoi_name) aoi_name
        (otb_path.getD otbDefaultPath))
      (sortClustersBySize clusters) ++ scriptFooter = _
  rw [foldl_append_blocks, List.append_assoc]

/-- Claim C5: for a nonempty cluster map, the emitted script assigns the
mosaicking binary path to OTB_MOSAIC, consists of the header, one block per
cluster and the footer, lists the clusters in non-increasing size order, and
contains exactly one mosaic_cluster invocation line per cluster; each block
passes the tif file names of its cluster as the invocation arguments. -/
theorem generate_mosaic_script_spec {Poly : Type}
    (clusters : List (String × List (Scene Poly))) (data_dir aoi_name : String)
    (otb_path : Option String) (hne : clusters ≠ []) :
    ("OTB_MOSAIC=\"" ++ otb_path.getD otbDefaultPath ++ "\"")
        ∈ generate_mosaic_script clusters data_dir aoi_name otb_path ∧
      generate_mosaic_script clusters data_dir aoi_name otb_path
        = scriptHeader data_dir (data_dir ++ "/mosaic_" ++ aoi_name) aoi_name
            (otb_path.getD otbDefaultPath)
            ++ (sortClustersBySize clusters).flatMap clusterBlock ++ scriptFooter ∧
      (sortClustersBySize clusters).Perm clusters ∧
      List.Sorted sizeGe (sortClustersBySize clusters) ∧
      (generate_mosaic_script clusters data_dir aoi_name otb_path).countP lineIsInvocation
        = clusters.length := by
  refine ⟨?_, generate_mosaic_script_eq clusters data_dir aoi_name otb_path,
    List.perm_insertionSort sizeGe clusters, List.sorted_insertionSort sizeGe clusters, ?_⟩
  · rw [generate_mosaic_script_eq]
    exact List.mem_append_left _ (List.mem_append_left _
      (otb_mem_scriptHeader data_dir (data_dir ++ "/mosaic_" ++ aoi_name) aoi_name
        (otb_path.getD otbDefaultPath)))
  · rw [generate_mosaic_script_eq, List.countP_append, List.countP_append,
      countP_scriptHeader, countP_flatMap_blocks, countP_scriptFooter]
    have hlen : (sortClustersBySize clusters).length = clusters.length :=
      (List.perm_insertionSort sizeGe clusters).length_eq
    omega

/-- Witness for the claim C5 theorem on a concrete one-cluster map. -/
theorem generate_mosaic_script_spec_witness :
    (([("cluster_1", [wScene])] : List (String × List (Scene Unit))) ≠ []) ∧
      (("OTB_MOSAIC=\"" ++ (none : Option String).getD otbDefaultPath ++ "\"")
          ∈ generate_mosaic_script [("cluster_1", [wScene])] "/data" "aoi" none ∧
        generate_mosaic_script [("cluster_1", [wScene])] "/data" "aoi" none
          = scriptHeader "/data" ("/data" ++ "/mosaic_" ++ "aoi") "aoi"
              ((none : Option String).getD otbDefaultPath)
              ++ (sortClustersBySize [("cluster_1", [wScene])]).flatMap clusterBlock
              ++ scriptFooter ∧
        (sortClustersBySize [("cluster_1", [wScene])]).Perm [("cluster_1", [wScene])] ∧
        List.Sorted sizeGe (sortClustersBySize [("cluster_1", [wScene])]) ∧
        (generate_mosaic_script [("cluster_1", [wScene])] "/data" "aoi" none).countP
            lineIsInvocation
          = ([("cluster_1", [wScene])] : List (String × List (Scene Unit))).length) :=
  ⟨by decide,
    generate_mosaic_script_spec [("cluster_1", [wScene])] "/data" "aoi" none (by decide)⟩
